import Mathlib

/-!
Verification of the `fetch-instagram-profile` Supabase edge function
(`src/supabase/functions/fetch-instagram-profile/index.ts`, latest revision).

The handler is shallowly embedded as a pure function: all external effects
(current time, cache read outcome, upstream HTTP response, image download and
upload outcomes, upsert outcome) are supplied through an `Env` record, and the
database table `instagram_profiles` is a list of records threaded through the
handler.  Timestamps are modelled as natural numbers of milliseconds.
-/

namespace SzonPatrol

/-- ASCII lowercasing of a single character, the fragment of JavaScript
`String.prototype.toLowerCase` relevant to this code path: characters in
`A`–`Z` (codes 65–90) are shifted into `a`–`z`; everything else is kept. -/
def jsToLower (c : Char) : Char :=
  if 'A'.toNat ≤ c.toNat ∧ c.toNat ≤ 'Z'.toNat then Char.ofNat (c.toNat + 32) else c

/-- Normalization on the character list: lowercase every character, then strip
the maximal leading run of `@` characters, embedding
`username.toLowerCase().replace(/^@+/, "")`. -/
def normalizeList (l : List Char) : List Char :=
  (l.map jsToLower).dropWhile (· == '@')

/-- Username normalization of the handler:
`username.toLowerCase().replace(/^@+/, "")`. -/
def normalize (s : String) : String :=
  ⟨normalizeList s.toList⟩

/-- Membership in the regex digit class `\d` (ASCII `0`–`9`). -/
def isDigitChar (c : Char) : Bool :=
  '0'.toNat ≤ c.toNat && c.toNat ≤ '9'.toNat

/-- Membership in the regex character class `[a-z\d_.]`. -/
def isClassChar (c : Char) : Bool :=
  ('a'.toNat ≤ c.toNat && c.toNat ≤ 'z'.toNat) || isDigitChar c || c == '_' || c == '.'

/-- Membership in the regex character class `[_.]`. -/
def isPunctChar (c : Char) : Bool :=
  c == '_' || c == '.'

/-- Scan for an occurrence of `[_.]{2}`: two adjacent characters that are both
`_` or `.`, embedding the negative lookahead `(?!.*[_.]{2})`. -/
def hasDoublePunct : List Char → Bool
  | a :: b :: rest => (isPunctChar a && isPunctChar b) || hasDoublePunct (b :: rest)
  | _ => false

/-- The validation regex
`/^(?!\d+$)(?!.*[_.]\x7b2\x7d)(?!\.)(?!.*\.$)[a-z\d_.]+$/` on a character
list: at least one character, all from `[a-z\d_.]`, not all digits, no two
adjacent `_`/`.` characters, and neither the first nor the last character is
`.`. -/
def validateList (l : List Char) : Bool :=
  !l.isEmpty && l.all isClassChar && !(l.all isDigitChar) &&
    !hasDoublePunct l && !(l.head? == some '.') && !(l.getLast? == some '.')

/-- `INSTAGRAM_USERNAME_REGEX.test` on a string. -/
def validate (s : String) : Bool :=
  validateList s.toList

/-- The validation rule as the specification words it: only lowercase letters,
digits, `_`, `.`; not all digits; no two consecutive `_`/`.` characters; the
username neither starts nor ends with `.`.  Stated independently of the regex
transcription `validateList`, to be compared with it. -/
def SpecValidUsername (s : String) : Prop :=
  (∀ c ∈ s.toList, isClassChar c = true) ∧
  ¬(∀ c ∈ s.toList, isDigitChar c = true) ∧
  (∀ p ∈ s.toList.zip s.toList.tail, ¬(isPunctChar p.1 = true ∧ isPunctChar p.2 = true)) ∧
  s.toList.head? ≠ some '.' ∧
  s.toList.getLast? ≠ some '.'

/-- The provider's native payload shape (`HikerApiProfilePayload`). -/
structure HikerApiProfilePayload where
  pk : Nat
  username : String
  is_private : Bool
  is_verified : Bool
  is_business : Bool
  full_name : Option String
  profile_pic_url : Option String
  biography : Option String
  external_url : Option String
  deriving Repr, DecidableEq

/-- The stored/returned entity (`InstagramProfile`): the payload fields with
`pk` renamed to `id`, an `updated_at` timestamp (milliseconds), and an
optional mirrored `profile_pic_url` (`none` models the field being absent or
null in the TypeScript record). -/
structure InstagramProfile where
  id : Nat
  username : String
  full_name : Option String
  biography : Option String
  external_url : Option String
  is_private : Bool
  is_verified : Bool
  is_business : Bool
  updated_at : Nat
  profile_pic_url : Option String := none
  deriving Repr, DecidableEq

/-- An upstream HTTP response as seen by `fetchProfile`: a status code, a
status text, and the JSON payload the body parses to when consulted. -/
structure HttpResp where
  status : Nat
  statusText : String
  payload : HikerApiProfilePayload
  deriving Repr, DecidableEq

/-- JavaScript `Response.ok`: status in the range 200–299. -/
def HttpResp.ok (r : HttpResp) : Bool :=
  200 ≤ r.status && r.status < 300

/-- Embedding of `fetchProfile`: status 404 yields `none` (profile not found),
any other non-ok status throws (`Except.error` with the message built from the
status and status text), and an ok status parses the payload. -/
def fetchProfile (r : HttpResp) : Except String (Option HikerApiProfilePayload) :=
  if r.status = 404 then .ok none
  else if !r.ok then
    .error ("Failed to fetch Instagram profile: " ++ toString r.status ++ " " ++ r.statusText)
  else .ok (some r.payload)

/-- Embedding of `downloadProfilePicture`: a non-ok image response yields
`none`, an ok response yields the blob (modelled opaquely). -/
def downloadProfilePicture (ok : Bool) : Option Unit :=
  if ok then some () else none

/-- Outcomes of all external effects consulted during one invocation: the
clock, the cache read, the upstream HTTP response, the image download and
upload, the public-URL resolution, and the upsert. -/
structure Env where
  now : Nat
  cacheReadFails : Bool
  upstream : HttpResp
  picDownloadOk : Bool
  uploadFails : Bool
  publicUrl : String
  upsertFails : Bool
  deriving Repr, DecidableEq

/-- The cache TTL: `30 * 24 * 60 * 60 * 1000` milliseconds (30 days). -/
def ttlMs : Nat := 30 * 24 * 60 * 60 * 1000

/-- The response body: either a JSON error object or a serialized profile
record, optionally merged with a `cached` boolean marker (`none` means the
body carries no `cached` key at all). -/
inductive RespBody where
  | err (msg : String)
  | profile (p : InstagramProfile) (cachedMarker : Option Bool)
  deriving Repr, DecidableEq

/-- An HTTP response of the handler. -/
structure Response where
  status : Nat
  body : RespBody
  deriving Repr, DecidableEq

/-- Result of one handler invocation: the HTTP response, whether the upstream
provider was called, the record passed to the upsert (if any), and the
post-state of the `instagram_profiles` table. -/
structure HandlerResult where
  resp : Response
  upstreamCalled : Bool
  upsertAttempt : Option InstagramProfile
  store : List InstagramProfile
  deriving Repr, DecidableEq

/-- The cache query
`.from("instagram_profiles").select("*").eq("username", u).maybeSingle()`:
the first stored record whose `username` equals the normalized username. -/
def findByUsername (store : List InstagramProfile) (u : String) : Option InstagramProfile :=
  store.find? (fun r => r.username == u)

/-- Upsert with `onConflict: "id"`: if a row with the same `id` exists it is
overwritten in place, otherwise the record is appended. -/
def upsertById (store : List InstagramProfile) (p : InstagramProfile) : List InstagramProfile :=
  if store.any (fun r => r.id == p.id) then
    store.map (fun r => if r.id == p.id then p else r)
  else store ++ [p]

/-- The truthiness test `if (profileInfo.profile_pic_url)`: true exactly for a
present, non-empty string. -/
def isTruthyStr : Option String → Bool
  | none => false
  | some s => s != ""

/-- The asset-mirroring step: when the payload's picture URL is truthy, try to
download the image; on download success, upload it to the
`instagram_profile_pictures` bucket and, when the upload succeeds, replace the
record's `profile_pic_url` with the bucket's public URL.  On download or
upload failure the record is returned unchanged. -/
def mirrorPic (env : Env) (pi : HikerApiProfilePayload) (p : InstagramProfile) :
    InstagramProfile :=
  if isTruthyStr pi.profile_pic_url then
    match downloadProfilePicture env.picDownloadOk with
    | some _ => if env.uploadFails then p else { p with profile_pic_url := some env.publicUrl }
    | none => p
  else p

/-- The record constructed from a fetched payload (`const profile:
InstagramProfile = ...`): the `username` field is the normalized request
username, `updated_at` is the current time, and `profile_pic_url` is not
assigned. -/
def buildProfile (env : Env) (uf : String) (pi : HikerApiProfilePayload) : InstagramProfile :=
  { id := pi.pk
    username := uf
    full_name := pi.full_name
    biography := pi.biography
    external_url := pi.external_url
    is_private := pi.is_private
    is_verified := pi.is_verified
    is_business := pi.is_business
    updated_at := env.now }

/-- The fallthrough path after a cache miss or a stale cache hit: upstream
fetch, 500 on a thrown error, 404 when the profile is not found, otherwise
build the record, mirror the picture, best-effort upsert, and respond 200 with
the record (no `cached` marker). -/
def handleFetch (env : Env) (store : List InstagramProfile) (uf : String) : HandlerResult :=
  match fetchProfile env.upstream with
  | .error msg => ⟨⟨500, .err msg⟩, true, none, store⟩
  | .ok none => ⟨⟨404, .err "Instagram profile not found"⟩, true, none, store⟩
  | .ok (some pi) =>
    let p := mirrorPic env pi (buildProfile env uf pi)
    let store' := if env.upsertFails then store else upsertById store p
    ⟨⟨200, .profile p none⟩, true, some p, store'⟩

/-- The full `Deno.serve` handler: normalize, validate (400 on failure), read
the cache (a failed read behaves as a miss), return a fresh cached record with
`cached: true` and no upstream call, otherwise fall through to the upstream
fetch path. -/
def handle (env : Env) (store : List InstagramProfile) (username : String) : HandlerResult :=
  let uf := normalize username
  if !validate uf then
    ⟨⟨400, .err "Invalid Instagram username"⟩, false, none, store⟩
  else
    let cached := if env.cacheReadFails then none else findByUsername store uf
    match cached with
    | some c =>
      if env.now - c.updated_at < ttlMs then
        ⟨⟨200, .profile c (some true)⟩, false, none, store⟩
      else handleFetch env store uf
    | none => handleFetch env store uf

/-- The `cached` marker carried by a response body (`none` when the body has
no `cached` key, as on the fresh-fetch path). -/
def cachedMarkerOf : RespBody → Option Bool
  | .err _ => none
  | .profile _ m => m

/-- The profile record carried by a response body, if any. -/
def bodyRecord : RespBody → Option InstagramProfile
  | .err _ => none
  | .profile p _ => some p

/-- The situations in which the handler falls through to the upstream fetch:
the cache read failed, or no record matches the normalized username, or the
matching record is stale (age at least the TTL). -/
def NoFreshCacheHit (env : Env) (store : List InstagramProfile) (uf : String) : Prop :=
  env.cacheReadFails = true ∨ findByUsername store uf = none ∨
    ∃ c, findByUsername store uf = some c ∧ ¬(env.now - c.updated_at < ttlMs)

/-! ### Concrete fixtures used to instantiate the theorems -/

/-- A sample upstream payload; its `username` field deliberately differs from
any normalized request username. -/
def payloadW : HikerApiProfilePayload :=
  { pk := 7
    username := "BobFromApi"
    is_private := false
    is_verified := true
    is_business := false
    full_name := some "Bob Kowalski"
    profile_pic_url := some "https://cdn.example/orig.jpg"
    biography := none
    external_url := some "https://bob.example" }

/-- A sample stored record for username `bob`, last updated at time
9913600000 (one day before `envW.now`). -/
def cachedW : InstagramProfile :=
  { id := 7
    username := "bob"
    full_name := some "Bob Kowalski"
    biography := none
    external_url := some "https://bob.example"
    is_private := false
    is_verified := true
    is_business := false
    updated_at := 9913600000
    profile_pic_url := some "https://cdn.example/old.jpg" }

/-- A stale variant of `cachedW`: 31 days older than `envW.now`. -/
def staleW : InstagramProfile :=
  { cachedW with updated_at := 7321600000 }

/-- A sample environment: the clock reads 10000000000 ms and every external
call succeeds (upstream 200, image download and upload succeed, upsert
succeeds). -/
def envW : Env :=
  { now := 10000000000
    cacheReadFails := false
    upstream := ⟨200, "OK", payloadW⟩
    picDownloadOk := true
    uploadFails := false
    publicUrl := "https://storage.example/instagram_profile_pictures/7/profile_pic.jpg"
    upsertFails := false }

/-- Like `envW`, but the profile-picture download fails. -/
def envNoDownloadW : Env :=
  { envW with picDownloadOk := false }

/-- Like `envW`, but the upstream provider responds 404. -/
def env404W : Env :=
  { envW with upstream := ⟨404, "Not Found", payloadW⟩ }

/-- Like `envW`, but the database upsert fails. -/
def envUpsertFailW : Env :=
  { envW with upsertFails := true }

/-! ### Helper lemmas -/

/-- The double-punctuation scan fails exactly when no two adjacent characters
are both `_`/`.`. -/
lemma hasDoublePunct_eq_false_iff (l : List Char) :
    hasDoublePunct l = false ↔
      ∀ p ∈ l.zip l.tail, ¬(isPunctChar p.1 = true ∧ isPunctChar p.2 = true) := by
  induction l with
  | nil => simp [hasDoublePunct]
  | cons a t ih =>
    cases t with
    | nil => simp [hasDoublePunct]
    | cons b rest =>
      rw [show (a :: b :: rest).tail = b :: rest from rfl, List.zip_cons_cons]
      constructor
      · intro h
        rcases Bool.or_eq_false_iff.mp h with ⟨h1, h2⟩
        intro p hp
        rcases List.mem_cons.mp hp with hpab | hp'
        · subst hpab
          intro hc
          rw [hc.1, hc.2] at h1
          simp at h1
        · have := (ih.mp h2) p
          rw [show (b :: rest).tail = rest from rfl] at this
          exact this hp'
      · intro h
        apply Bool.or_eq_false_iff.mpr
        constructor
        · have hab := h (a, b) (List.mem_cons_self _ _)
          cases ha : isPunctChar a <;> cases hb : isPunctChar b <;> simp_all
        · apply ih.mpr
          intro p hp
          rw [show (b :: rest).tail = rest from rfl] at hp
          exact h p (List.mem_cons_of_mem _ hp)

/-- Characters of the validation class are already lowercase, so ASCII
lowercasing fixes them. -/
lemma jsToLower_fixed_of_class (c : Char) (h : isClassChar c = true) : jsToLower c = c := by
  simp only [isClassChar, isDigitChar, Bool.or_eq_true, Bool.and_eq_true,
    decide_eq_true_eq, beq_iff_eq] at h
  have ha : 'a'.toNat = 97 := rfl
  have hz : 'z'.toNat = 122 := rfl
  have h0 : '0'.toNat = 48 := rfl
  have h9 : '9'.toNat = 57 := rfl
  have hA : 'A'.toNat = 65 := rfl
  have hZ : 'Z'.toNat = 90 := rfl
  rcases h with ((⟨h1, h2⟩ | ⟨h1, h2⟩) | h) | h
  · rw [jsToLower, if_neg]; omega
  · rw [jsToLower, if_neg]; omega
  · subst h; rfl
  · subst h; rfl

/-- Characters of the validation class are never `@`. -/
lemma class_ne_at (c : Char) (h : isClassChar c = true) : (c == '@') = false := by
  simp only [isClassChar, isDigitChar, Bool.or_eq_true, Bool.and_eq_true,
    decide_eq_true_eq, beq_iff_eq] at h
  rw [beq_eq_false_iff_ne]
  rintro rfl
  have ha : 'a'.toNat = 97 := rfl
  have hz : 'z'.toNat = 122 := rfl
  have h0 : '0'.toNat = 48 := rfl
  have h9 : '9'.toNat = 57 := rfl
  have hat : '@'.toNat = 64 := rfl
  rcases h with ((⟨h1, h2⟩ | ⟨h1, h2⟩) | h) | h
  · omega
  · omega
  · exact absurd h (by decide)
  · exact absurd h (by decide)

/-- A string that passes validation is left unchanged by normalization: all
its characters are lowercase class characters and it cannot begin with `@`. -/
lemma normalize_of_validate (u : String) (h : validate u = true) : normalize u = u := by
  obtain ⟨ld⟩ := u
  rw [validate, validateList] at h
  simp only [Bool.and_eq_true] at h
  obtain ⟨⟨⟨⟨⟨_, h1⟩, _⟩, _⟩, _⟩, _⟩ := h
  have hclass : ∀ c ∈ ld, isClassChar c = true := by
    intro c hc
    exact List.all_eq_true.mp h1 c hc
  have hmap : ld.map jsToLower = ld := by
    calc ld.map jsToLower = ld.map id :=
          List.map_congr_left (fun a ha => jsToLower_fixed_of_class a (hclass a ha))
      _ = ld := List.map_id ld
  have hdrop : ld.dropWhile (· == '@') = ld := by
    cases hc : ld with
    | nil => rfl
    | cons a t =>
      have hcl : isClassChar a = true := hclass a (hc ▸ List.mem_cons_self a t)
      have : ¬((a == '@') = true) := by
        rw [class_ne_at a hcl]
        exact Bool.false_ne_true
      exact List.dropWhile_cons_of_neg this
  show String.mk (normalizeList ld) = String.mk ld
  rw [normalizeList, hmap, hdrop]

/-- Asset mirroring never changes the `updated_at` timestamp. -/
lemma mirrorPic_updated_at (env : Env) (pi : HikerApiProfilePayload) (p : InstagramProfile) :
    (mirrorPic env pi p).updated_at = p.updated_at := by
  cases hp : isTruthyStr pi.profile_pic_url <;> cases hd : env.picDownloadOk <;>
    cases hu : env.uploadFails <;> simp [mirrorPic, downloadProfilePicture, hp, hd, hu]

/-- Asset mirroring never changes the `username` field. -/
lemma mirrorPic_username (env : Env) (pi : HikerApiProfilePayload) (p : InstagramProfile) :
    (mirrorPic env pi p).username = p.username := by
  cases hp : isTruthyStr pi.profile_pic_url <;> cases hd : env.picDownloadOk <;>
    cases hu : env.uploadFails <;> simp [mirrorPic, downloadProfilePicture, hp, hd, hu]

/-- When the image download or the upload fails, asset mirroring returns the
record unchanged. -/
lemma mirrorPic_fail (env : Env) (pi : HikerApiProfilePayload) (p : InstagramProfile)
    (hfail : env.picDownloadOk = false ∨ env.uploadFails = true) :
    mirrorPic env pi p = p := by
  rcases hfail with h | h <;> cases hp : isTruthyStr pi.profile_pic_url <;>
    cases hd : env.picDownloadOk <;> cases hu : env.uploadFails <;>
    simp_all [mirrorPic, downloadProfilePicture]

/-- After a valid username with no fresh cache hit, the handler is exactly the
fetch fallthrough. -/
lemma handle_eq_handleFetch (env : Env) (store : List InstagramProfile) (u : String)
    (hv : validate (normalize u) = true)
    (hmiss : NoFreshCacheHit env store (normalize u)) :
    handle env store u = handleFetch env store (normalize u) := by
  rcases hmiss with h | h | ⟨c, hc, hstale⟩
  · simp [handle, hv, h]
  · cases hr : env.cacheReadFails <;> simp [handle, hv, h, hr]
  · cases hr : env.cacheReadFails <;> simp [handle, hv, hr, hc, hstale]

/-- The fetch fallthrough on upstream success: the rebuilt, mirrored record is
returned with status 200 and no `cached` marker, and is the upsert payload. -/
lemma handleFetch_success (env : Env) (store : List InstagramProfile) (uf : String)
    (pi : HikerApiProfilePayload) (hfp : fetchProfile env.upstream = .ok (some pi)) :
    handleFetch env store uf =
      ⟨⟨200, .profile (mirrorPic env pi (buildProfile env uf pi)) none⟩, true,
        some (mirrorPic env pi (buildProfile env uf pi)),
        if env.upsertFails then store
        else upsertById store (mirrorPic env pi (buildProfile env uf pi))⟩ := by
  simp [handleFetch, hfp]

/-- The post-state of any handler invocation is either the unchanged store or
a single upsert into it. -/
lemma handle_store_cases (env : Env) (store : List InstagramProfile) (u : String) :
    (handle env store u).store = store ∨
      ∃ p, (handle env store u).store = upsertById store p := by
  have hfetch : ∀ uf, (handleFetch env store uf).store = store ∨
      ∃ p, (handleFetch env store uf).store = upsertById store p := by
    intro uf
    rcases hfp : fetchProfile env.upstream with msg | _ | pi
    · left; simp [handleFetch, hfp]
    · left; simp [handleFetch, hfp]
    · cases hu : env.upsertFails
      · right
        exact ⟨mirrorPic env pi (buildProfile env uf pi), by simp [handleFetch, hfp, hu]⟩
      · left; simp [handleFetch, hfp, hu]
  by_cases hv : validate (normalize u) = true
  · cases hc : (if env.cacheReadFails then none else findByUsername store (normalize u)) with
    | none =>
      have : handle env store u = handleFetch env store (normalize u) := by
        simp [handle, hv, hc]
      rw [this]; exact hfetch _
    | some c =>
      by_cases hfresh : env.now - c.updated_at < ttlMs
      · left; simp [handle, hv, hc, hfresh]
      · have : handle env store u = handleFetch env store (normalize u) := by
          simp [handle, hv, hc, hfresh]
        rw [this]; exact hfetch _
  · left
    have hv' : validate (normalize u) = false := by
      cases h : validate (normalize u)
      · rfl
      · exact absurd h hv
    simp [handle, hv']

/-- Upsert keyed on `id` preserves distinctness of the stored `id`s. -/
lemma upsertById_nodup (store : List InstagramProfile) (p : InstagramProfile)
    (h : (store.map (fun r => r.id)).Nodup) :
    ((upsertById store p).map (fun r => r.id)).Nodup := by
  unfold upsertById
  split
  · have hs : (store.map (fun r => if r.id == p.id then p else r)).map (fun r => r.id) =
        store.map (fun r => r.id) := by
      rw [List.map_map]
      apply List.map_congr_left
      intro r _
      by_cases hid : r.id = p.id <;> simp [Function.comp, hid]
    rw [hs]; exact h
  · rename_i hany
    have hnotin : p.id ∉ store.map (fun r => r.id) := by
      intro hin
      rcases List.mem_map.mp hin with ⟨r, hr, hid⟩
      exact hany (List.any_eq_true.mpr ⟨r, hr, by simp [hid]⟩)
    rw [List.map_append]
    simp only [List.map_cons, List.map_nil]
    exact List.Nodup.append h (List.nodup_singleton _)
      (by simp [List.disjoint_singleton, hnotin])

/-! ### Claim theorems -/

/-- C4: validation accepts a normalized username iff it consists only of
lowercase letters, digits, `_`, `.`, is not all digits, has no two consecutive
`_`/`.` characters, and neither starts nor ends with `.`; in particular
`"john__doe"`, `"123"`, `".abc"` and `"abc."` are rejected, while `"John.Doe"`
normalizes to `"john.doe"` and passes. -/
theorem validate_agrees_with_pattern :
    (∀ s : String, validate s = true ↔ SpecValidUsername s) ∧
    validate "john__doe" = false ∧ validate "123" = false ∧
    validate ".abc" = false ∧ validate "abc." = false ∧
    normalize "John.Doe" = "john.doe" ∧ validate (normalize "John.Doe") = true := by
  refine ⟨?_, by decide, by decide, by decide, by decide, by decide, by decide⟩
  intro s
  rw [validate, SpecValidUsername]
  cases hl : s.toList with
  | nil =>
    simp [validateList]
  | cons a t =>
    simp only [validateList, List.isEmpty_cons, Bool.not_false, Bool.true_and,
      Bool.and_eq_true, Bool.not_eq_true', ← List.all_eq_true, Bool.not_eq_true,
      beq_eq_false_iff_ne, hasDoublePunct_eq_false_iff]
    tauto

/-- C8: normalization (lowercasing, then stripping leading `@` characters) is
idempotent on every username matching the validation pattern. -/
theorem normalize_idempotent_on_valid (u : String) (h : validate u = true) :
    normalize (normalize u) = normalize u := by
  simp only [normalize_of_validate u h]

/-- Witness for C8 at the concrete valid username `john.doe`. -/
theorem normalize_idempotent_on_valid_witness :
    validate "john.doe" = true ∧
      normalize (normalize "john.doe") = normalize "john.doe" :=
  ⟨by decide, normalize_idempotent_on_valid "john.doe" (by decide)⟩

/-- C1: when the normalized username has a stored record whose age is strictly
below the 30-day TTL, the handler returns exactly that record with a
`cached: true` marker and status 200, makes no upstream call, attempts no
write, and leaves the store unchanged. -/
theorem fresh_cache_hit_returns_cached (env : Env) (store : List InstagramProfile)
    (u : String) (c : InstagramProfile)
    (hv : validate (normalize u) = true)
    (hr : env.cacheReadFails = false)
    (hf : findByUsername store (normalize u) = some c)
    (hfresh : env.now - c.updated_at < ttlMs) :
    handle env store u = ⟨⟨200, .profile c (some true)⟩, false, none, store⟩ := by
  simp [handle, hv, hr, hf, hfresh]

/-- Witness for C1: a record updated one day ago is served from the cache. -/
theorem fresh_cache_hit_returns_cached_witness :
    handle envW [cachedW] "Bob" =
      ⟨⟨200, .profile cachedW (some true)⟩, false, none, [cachedW]⟩ :=
  fresh_cache_hit_returns_cached envW [cachedW] "Bob" cachedW
    (by decide) rfl (by decide) (by decide)

/-- C2 counterexample: with a record 31 days old and a successful upstream
fetch, the handler returns status 200 but the body carries no `cached` key at
all — in particular it is not merged with `cached: false` as the claim
states. -/
theorem stale_refresh_no_cached_false_marker :
    (handle envW [staleW] "Bob").resp.status = 200 ∧
    (handle envW [staleW] "Bob").upstreamCalled = true ∧
    cachedMarkerOf (handle envW [staleW] "Bob").resp.body = none ∧
    (none : Option Bool) ≠ some false := by
  refine ⟨by decide, by decide, by decide, by decide⟩

/-- C2 (amended): on a stale cache hit with upstream success, the handler
calls upstream and returns HTTP 200 whose body is the full rebuilt profile
record with `updated_at` refreshed to the current time; the body carries no
`cached` marker (in particular it is not merged with `cached: false`). -/
theorem stale_refresh_returns_fresh_record (env : Env) (store : List InstagramProfile)
    (u : String) (c : InstagramProfile)
    (hv : validate (normalize u) = true)
    (_hr : env.cacheReadFails = false)
    (hf : findByUsername store (normalize u) = some c)
    (hstale : ¬(env.now - c.updated_at < ttlMs))
    (pi : HikerApiProfilePayload) (hfp : fetchProfile env.upstream = .ok (some pi)) :
    (handle env store u).resp.status = 200 ∧
    (handle env store u).upstreamCalled = true ∧
    (handle env store u).resp.body =
      .profile (mirrorPic env pi (buildProfile env (normalize u) pi)) none ∧
    (mirrorPic env pi (buildProfile env (normalize u) pi)).updated_at = env.now := by
  rw [handle_eq_handleFetch env store u hv (Or.inr (Or.inr ⟨c, hf, hstale⟩)),
    handleFetch_success env store (normalize u) pi hfp]
  exact ⟨rfl, rfl, rfl, by rw [mirrorPic_updated_at]; rfl⟩

/-- Witness for the amended C2 at a record 31 days old. -/
theorem stale_refresh_returns_fresh_record_witness :
    (handle envW [staleW] "Bob").resp.status = 200 ∧
    (handle envW [staleW] "Bob").upstreamCalled = true ∧
    (handle envW [staleW] "Bob").resp.body =
      .profile (mirrorPic envW payloadW (buildProfile envW (normalize "Bob") payloadW)) none ∧
    (mirrorPic envW payloadW (buildProfile envW (normalize "Bob") payloadW)).updated_at =
      envW.now :=
  stale_refresh_returns_fresh_record envW [staleW] "Bob" staleW (by decide) rfl
    (by decide) (by decide) payloadW rfl

/-- C3 counterexample: when the image download fails, the persisted and
returned record's `profile_pic_url` is not the provider's original URL — the
field is left unset — although the handler does still respond 200. -/
theorem pic_failure_counterexample :
    (handle envNoDownloadW [] "Bob").resp.status = 200 ∧
    (handle envNoDownloadW [] "Bob").resp.body =
      .profile (buildProfile envNoDownloadW "bob" payloadW) none ∧
    (handle envNoDownloadW [] "Bob").upsertAttempt =
      some (buildProfile envNoDownloadW "bob" payloadW) ∧
    (buildProfile envNoDownloadW "bob" payloadW).profile_pic_url = none ∧
    payloadW.profile_pic_url = some "https://cdn.example/orig.jpg" ∧
    (buildProfile envNoDownloadW "bob" payloadW).profile_pic_url ≠
      payloadW.profile_pic_url := by
  refine ⟨by decide, by decide, by decide, rfl, rfl, by decide⟩

/-- C3 (amended): if the image download or the object-store upload fails, the
record returned and persisted keeps no `profile_pic_url` at all (the field is
left unset rather than set to the provider's original URL), and the handler
still responds HTTP 200; the asset-mirroring step never aborts the request. -/
theorem pic_failure_leaves_pic_unset (env : Env) (store : List InstagramProfile)
    (u : String)
    (hv : validate (normalize u) = true)
    (hmiss : NoFreshCacheHit env store (normalize u))
    (pi : HikerApiProfilePayload) (hfp : fetchProfile env.upstream = .ok (some pi))
    (hfail : env.picDownloadOk = false ∨ env.uploadFails = true) :
    (handle env store u).resp.status = 200 ∧
    (handle env store u).resp.body = .profile (buildProfile env (normalize u) pi) none ∧
    (handle env store u).upsertAttempt = some (buildProfile env (normalize u) pi) ∧
    (buildProfile env (normalize u) pi).profile_pic_url = none := by
  rw [handle_eq_handleFetch env store u hv hmiss,
    handleFetch_success env store (normalize u) pi hfp, mirrorPic_fail env pi _ hfail]
  exact ⟨rfl, rfl, rfl, rfl⟩

/-- Witness for the amended C3: a failed download on a previously-unseen
username. -/
theorem pic_failure_leaves_pic_unset_witness :
    (handle envNoDownloadW [] "Bob").resp.status = 200 ∧
    (handle envNoDownloadW [] "Bob").resp.body =
      .profile (buildProfile envNoDownloadW (normalize "Bob") payloadW) none ∧
    (handle envNoDownloadW [] "Bob").upsertAttempt =
      some (buildProfile envNoDownloadW (normalize "Bob") payloadW) ∧
    (buildProfile envNoDownloadW (normalize "Bob") payloadW).profile_pic_url = none :=
  pic_failure_leaves_pic_unset envNoDownloadW [] "Bob" (by decide)
    (Or.inr (Or.inl rfl)) payloadW rfl (Or.inl rfl)

/-- C5: when no fresh cache record exists for a syntactically valid username
and the upstream provider responds HTTP 404, the handler responds status 404
with body `\x7b"error": "Instagram profile not found"\x7d`. -/
theorem upstream_404_yields_profile_not_found (env : Env)
    (store : List InstagramProfile) (u : String)
    (hv : validate (normalize u) = true)
    (hmiss : NoFreshCacheHit env store (normalize u))
    (h404 : env.upstream.status = 404) :
    (handle env store u).resp = ⟨404, .err "Instagram profile not found"⟩ := by
  rw [handle_eq_handleFetch env store u hv hmiss]
  simp [handleFetch, fetchProfile, h404]

/-- Witness for C5: a previously-unseen username whose upstream lookup is
404. -/
theorem upstream_404_yields_profile_not_found_witness :
    (handle env404W [] "Bob").resp = ⟨404, .err "Instagram profile not found"⟩ :=
  upstream_404_yields_profile_not_found env404W [] "Bob" (by decide)
    (Or.inr (Or.inl rfl)) rfl

/-- C6: a failing persistence upsert does not prevent the handler from
returning HTTP 200 with the freshly fetched profile data; the failed write
merely leaves the store unchanged. -/
theorem upsert_failure_best_effort (env : Env) (store : List InstagramProfile)
    (u : String)
    (hv : validate (normalize u) = true)
    (hmiss : NoFreshCacheHit env store (normalize u))
    (pi : HikerApiProfilePayload) (hfp : fetchProfile env.upstream = .ok (some pi))
    (hup : env.upsertFails = true) :
    (handle env store u).resp =
      ⟨200, .profile (mirrorPic env pi (buildProfile env (normalize u) pi)) none⟩ ∧
    (handle env store u).store = store := by
  rw [handle_eq_handleFetch env store u hv hmiss,
    handleFetch_success env store (normalize u) pi hfp]
  exact ⟨rfl, by simp [hup]⟩

/-- Witness for C6: the upsert fails, the response is still the fresh 200. -/
theorem upsert_failure_best_effort_witness :
    (handle envUpsertFailW [] "Bob").resp =
      ⟨200, .profile
        (mirrorPic envUpsertFailW payloadW
          (buildProfile envUpsertFailW (normalize "Bob") payloadW)) none⟩ ∧
    (handle envUpsertFailW [] "Bob").store = [] :=
  upsert_failure_best_effort envUpsertFailW [] "Bob" (by decide)
    (Or.inr (Or.inl rfl)) payloadW rfl rfl

/-- C7: every handler invocation preserves the invariant that at most one
record exists per `id` — the post-state is either the unchanged store or a
single id-keyed upsert, which never duplicates an `id`. -/
theorem handler_preserves_unique_ids (env : Env) (store : List InstagramProfile)
    (u : String) (h : (store.map (fun r => r.id)).Nodup) :
    ((handle env store u).store.map (fun r => r.id)).Nodup ∧
    ((handle env store u).store = store ∨
      ∃ p, (handle env store u).store = upsertById store p) := by
  rcases handle_store_cases env store u with hs | ⟨p, hs⟩
  · refine ⟨?_, Or.inl hs⟩
    rw [hs]; exact h
  · refine ⟨?_, Or.inr ⟨p, hs⟩⟩
    rw [hs]; exact upsertById_nodup store p h

/-- Witness for C7 on a store already containing the fetched `id`. -/
theorem handler_preserves_unique_ids_witness :
    ([staleW].map (fun r => r.id)).Nodup ∧
    ((handle envW [staleW] "Bob").store.map (fun r => r.id)).Nodup :=
  ⟨by decide, (handler_preserves_unique_ids envW [staleW] "Bob" (by decide)).1⟩

/-- C9: on fresh-fetch success the `username` of the returned and persisted
record is the normalized request username, whatever `username` the provider's
payload carries. -/
theorem response_username_is_normalized (env : Env) (store : List InstagramProfile)
    (u : String)
    (hv : validate (normalize u) = true)
    (hmiss : NoFreshCacheHit env store (normalize u))
    (pi : HikerApiProfilePayload) (hfp : fetchProfile env.upstream = .ok (some pi)) :
    (handle env store u).resp.body =
      .profile (mirrorPic env pi (buildProfile env (normalize u) pi)) none ∧
    (handle env store u).upsertAttempt =
      some (mirrorPic env pi (buildProfile env (normalize u) pi)) ∧
    (mirrorPic env pi (buildProfile env (normalize u) pi)).username = normalize u := by
  rw [handle_eq_handleFetch env store u hv hmiss,
    handleFetch_success env store (normalize u) pi hfp]
  exact ⟨rfl, rfl, by rw [mirrorPic_username]; rfl⟩

/-- Witness for C9: the payload's own username differs from the normalized
request username, yet the record carries the normalized one. -/
theorem response_username_is_normalized_witness :
    ((handle envW [] "Bob").resp.body =
      .profile (mirrorPic envW payloadW (buildProfile envW (normalize "Bob") payloadW)) none ∧
    (handle envW [] "Bob").upsertAttempt =
      some (mirrorPic envW payloadW (buildProfile envW (normalize "Bob") payloadW)) ∧
    (mirrorPic envW payloadW (buildProfile envW (normalize "Bob") payloadW)).username =
      normalize "Bob") ∧
    payloadW.username ≠ normalize "Bob" :=
  ⟨response_username_is_normalized envW [] "Bob" (by decide) (Or.inr (Or.inl rfl))
    payloadW rfl, by decide⟩

/-- C10: a stale cached record is never served — if the matching record is at
least TTL old and the upstream fetch returns 404 or fails, the handler
responds 404 (profile not found) or 500 respectively, and the stale record is
left in the store unmodified with no write attempted. -/
theorem stale_record_never_served (env : Env) (store : List InstagramProfile)
    (u : String) (c : InstagramProfile)
    (hv : validate (normalize u) = true)
    (_hr : env.cacheReadFails = false)
    (hf : findByUsername store (normalize u) = some c)
    (hstale : ¬(env.now - c.updated_at < ttlMs))
    (hfail : fetchProfile env.upstream = .ok none ∨
      ∃ msg, fetchProfile env.upstream = .error msg) :
    ((handle env store u).resp = ⟨404, .err "Instagram profile not found"⟩ ∨
      ∃ msg, (handle env store u).resp = ⟨500, .err msg⟩) ∧
    (handle env store u).store = store ∧
    (handle env store u).upsertAttempt = none := by
  rw [handle_eq_handleFetch env store u hv (Or.inr (Or.inr ⟨c, hf, hstale⟩))]
  rcases hfail with h4 | ⟨msg, he⟩
  · simp [handleFetch, h4]
  · refine ⟨Or.inr ⟨msg, ?_⟩, ?_, ?_⟩ <;> simp [handleFetch, he]

/-- Witness for C10: a 31-day-old record together with an upstream 404 yields
a 404 response and an untouched store. -/
theorem stale_record_never_served_witness :
    ((handle env404W [staleW] "Bob").resp = ⟨404, .err "Instagram profile not found"⟩ ∨
      ∃ msg, (handle env404W [staleW] "Bob").resp = ⟨500, .err msg⟩) ∧
    (handle env404W [staleW] "Bob").store = [staleW] ∧
    (handle env404W [staleW] "Bob").upsertAttempt = none :=
  stale_record_never_served env404W [staleW] "Bob" staleW (by decide) rfl (by decide)
    (by decide) (Or.inl rfl)

end SzonPatrol
